import Mathlib

/-!
Verification development for the carrier-integration-service repository.

The TypeScript sources are shallowly embedded: pure functions become Lean
functions over `ℚ`/`ℤ`/`String`; JavaScript numbers that can be `NaN` are
modelled by `JsNum`; stateful services (the UPS auth token cache, the retry
engine, the rate-fetch pipeline) become explicit state passing, with the
asynchronous environment (transport results, `Math.random`, refresh
outcomes) supplied as oracle parameters.
-/

/-- Model of a JavaScript number that may be `NaN` (e.g. the result of
`parseFloat` / `parseInt` on a non-numeric string). -/
inductive JsNum where
  | nan : JsNum
  | val : ℚ → JsNum
deriving Repr, DecidableEq

/-- Longest leading run of decimal digits of a character list, together with
the remaining characters. -/
def takeDigits : List Char → List Char × List Char
  | [] => ([], [])
  | c :: cs =>
    if c.isDigit then
      let p := takeDigits cs
      (c :: p.1, p.2)
    else ([], c :: cs)

/-- Decimal value of a digit list (most significant first). -/
def digitsToNat (ds : List Char) : Nat :=
  ds.foldl (fun acc c => acc * 10 + (c.toNat - 48)) 0

/-- Model of JavaScript `parseFloat` restricted to the plain decimal literals
this repository produces and consumes (leading whitespace skipped, optional
sign, integer part, optional fractional part; trailing junk ignored,
exponents not used anywhere in the repository's wire data). Returns
`JsNum.nan` when no digits are found. -/
def jsParseFloat (s : String) : JsNum :=
  let cs := s.data.dropWhile Char.isWhitespace
  let signed : ℚ × List Char :=
    match cs with
    | c :: rest => if c = '-' then (-1, rest) else if c = '+' then (1, rest) else (1, cs)
    | [] => (1, cs)
  let ip := takeDigits signed.2
  let fracTail : Option (List Char) :=
    match ip.2 with
    | c :: rest => if c = '.' then some rest else none
    | [] => none
  match fracTail with
  | some cs₃ =>
    let fp := takeDigits cs₃
    if ip.1.isEmpty && fp.1.isEmpty then .nan
    else
      .val (signed.1 * ((digitsToNat ip.1 : ℚ) +
        (digitsToNat fp.1 : ℚ) / ((10 : ℚ) ^ fp.1.length)))
  | none =>
    if ip.1.isEmpty then .nan else .val (signed.1 * (digitsToNat ip.1 : ℚ))

/-- Model of JavaScript `parseInt(s, 10)`: leading whitespace skipped, then
an optional sign and the longest leading digit run; `NaN` when no digits are
found. -/
def jsParseInt (s : String) : JsNum :=
  let cs := s.data.dropWhile Char.isWhitespace
  let signed : ℚ × List Char :=
    match cs with
    | c :: rest => if c = '-' then (-1, rest) else if c = '+' then (1, rest) else (1, cs)
    | [] => (1, cs)
  let ip := takeDigits signed.2
  if ip.1.isEmpty then .nan else .val (signed.1 * (digitsToNat ip.1 : ℚ))

/-- Model of a JSON-like JavaScript value, used for carrier response bodies.
`null` also stands for `undefined` (both are falsy and both make the
optional-chaining probes in `ErrorMapper` miss). -/
inductive JsonVal where
  | null : JsonVal
  | str : String → JsonVal
  | num : JsNum → JsonVal
  | boolean : Bool → JsonVal
  | arr : List JsonVal → JsonVal
  | obj : List (String × JsonVal) → JsonVal

/-- JavaScript truthiness of a `JsonVal`. -/
def jsTruthy : JsonVal → Bool
  | .null => false
  | .str s => s ≠ ""
  | .num .nan => false
  | .num (.val q) => q ≠ 0
  | .boolean b => b
  | .arr _ => true
  | .obj _ => true

/-- Property access `v[k]` on a JSON value; `null` for a missing key or a
non-object receiver (modelling `undefined`, reached only behind optional
chaining or truthiness guards in the source). -/
def jsGet (v : JsonVal) (k : String) : JsonVal :=
  match v with
  | .obj fields => ((fields.lookup k).getD .null)
  | _ => .null

/-- Index access `v[i]` on a JSON array, `null` (for `undefined`) otherwise. -/
def jsIndex (v : JsonVal) (i : Nat) : JsonVal :=
  match v with
  | .arr xs => xs.getD i .null
  | _ => .null

/-- String rendering of a JSON value: the probes in `ErrorMapper` return the
found value, which is a string in every payload shape the repository handles;
non-strings are rendered through the `String(...)` conversion this model
collapses to a sentinel. -/
def jsonText : JsonVal → String
  | .str s => s
  | .boolean true => "true"
  | .boolean false => "false"
  | .null => "null"
  | _ => "[object]"

/-- Error taxonomy: the closed set of `CarrierError` subclasses in
`common/errors/carrier.error.ts`, represented as a tag. -/
inductive ErrorKind where
  | auth
  | validation
  | rateLimit
  | network
  | service
  | responseParse
  | unknown
deriving Repr, DecidableEq

/-- Model of a constructed `CarrierError`: the shared payload of the error
subclasses (the opaque `details` payload is not modelled; `retryAfterSeconds`
exists only on `CarrierRateLimitError` and is `none` elsewhere). -/
structure CarrierErrorModel where
  kind : ErrorKind
  message : String
  carrierCode : String
  errorCode : String
  httpStatus : Option Nat
  isRetryable : Bool
  retryAfterSeconds : Option ℚ
deriving Repr, DecidableEq

/-- Constructor of `CarrierAuthError` (401/403): retryable is fixed `false`. -/
def CarrierAuthError (message carrierCode errorCode : String)
    (httpStatus : Option Nat) : CarrierErrorModel :=
  ⟨.auth, message, carrierCode, errorCode, httpStatus, false, none⟩

/-- Constructor of `CarrierValidationError`: retryable is fixed `false`. -/
def CarrierValidationError (message carrierCode errorCode : String)
    (httpStatus : Option Nat) : CarrierErrorModel :=
  ⟨.validation, message, carrierCode, errorCode, httpStatus, false, none⟩

/-- Constructor of `CarrierRateLimitError`: retryable is fixed `true` and the
HTTP status is fixed at 429 by the class itself. -/
def CarrierRateLimitError (message carrierCode errorCode : String)
    (retryAfterSeconds : Option ℚ) : CarrierErrorModel :=
  ⟨.rateLimit, message, carrierCode, errorCode, some 429, true, retryAfterSeconds⟩

/-- Constructor of `CarrierNetworkError`: retryable is fixed `true`, no
HTTP status. -/
def CarrierNetworkError (message carrierCode errorCode : String) :
    CarrierErrorModel :=
  ⟨.network, message, carrierCode, errorCode, none, true, none⟩

/-- Constructor of `CarrierServiceError` (5xx): retryable is fixed `true`. -/
def CarrierServiceError (message carrierCode errorCode : String)
    (httpStatus : Option Nat) : CarrierErrorModel :=
  ⟨.service, message, carrierCode, errorCode, httpStatus, true, none⟩

/-- Constructor of `CarrierResponseParseError`: retryable is fixed `false`. -/
def CarrierResponseParseError (message carrierCode errorCode : String)
    (httpStatus : Option Nat) : CarrierErrorModel :=
  ⟨.responseParse, message, carrierCode, errorCode, httpStatus, false, none⟩

/-- Constructor of `CarrierUnknownError`: retryable is fixed `false`. -/
def CarrierUnknownError (message carrierCode errorCode : String)
    (httpStatus : Option Nat) : CarrierErrorModel :=
  ⟨.unknown, message, carrierCode, errorCode, httpStatus, false, none⟩

/-- Model of an axios HTTP response attached to an axios error:
`{status, data, headers}`. -/
structure AxiosResponseModel where
  status : Nat
  data : JsonVal
  headers : List (String × String)

/-- Model of an `AxiosError`: an optional response (absent for pure transport
failures), the transport error `code` (`ECONNABORTED`, `ETIMEDOUT`, ...) and
the error message. -/
structure AxiosErrorModel where
  response : Option AxiosResponseModel
  code : Option String
  message : String

/-- The raw failure value reaching `ErrorMapper.mapAxiosError`: an axios
error, a JavaScript `SyntaxError` (JSON parse failure), an
already-classified `CarrierError` rethrown into the mapper, or any other
generic `Error`. -/
inductive RawFailure where
  | axios : AxiosErrorModel → RawFailure
  | parseErr : String → RawFailure
  | carrierError : CarrierErrorModel → RawFailure
  | genericError : String → RawFailure

/-- Model of `ErrorMapper.extractErrorMessage`: probes the known payload
shapes in priority order and falls back to the sentinel "Unknown error". -/
def extractErrorMessage (data : JsonVal) : String :=
  if !jsTruthy data then "Unknown error"
  else
    match data with
    | .str s => s
    | _ =>
      if jsTruthy (jsGet data "message") then jsonText (jsGet data "message")
      else if jsTruthy (jsGet (jsGet data "error") "message") then
        jsonText (jsGet (jsGet data "error") "message")
      else if jsTruthy (jsGet (jsIndex (jsGet (jsGet data "response") "errors") 0) "message") then
        jsonText (jsGet (jsIndex (jsGet (jsGet data "response") "errors") 0) "message")
      else if jsTruthy (jsGet (jsIndex (jsGet data "errors") 0) "message") then
        jsonText (jsGet (jsIndex (jsGet data "errors") 0) "message")
      else "Unknown error"

/-- Model of `ErrorMapper.extractErrorCode`: probes the known payload shapes
in priority order, falling back to the sentinel "UNKNOWN". -/
def extractErrorCode (data : JsonVal) : String :=
  if !jsTruthy data then "UNKNOWN"
  else if jsTruthy (jsGet data "code") then jsonText (jsGet data "code")
  else if jsTruthy (jsGet data "errorCode") then jsonText (jsGet data "errorCode")
  else if jsTruthy (jsGet data "error_code") then jsonText (jsGet data "error_code")
  else if jsTruthy (jsGet (jsIndex (jsGet (jsGet data "response") "errors") 0) "code") then
    jsonText (jsGet (jsIndex (jsGet (jsGet data "response") "errors") 0) "code")
  else if jsTruthy (jsGet (jsIndex (jsGet data "errors") 0) "code") then
    jsonText (jsGet (jsIndex (jsGet data "errors") 0) "code")
  else "UNKNOWN"

/-- Model of `ErrorMapper.extractRetryAfter`: reads the `retry-after` header
(falling back to `Retry-After`), parses it with `parseInt`, and yields
`none` when missing or unparsable. -/
def extractRetryAfter (headers : List (String × String)) : Option ℚ :=
  let lower := (headers.lookup "retry-after").getD ""
  let ra := if lower ≠ "" then lower else (headers.lookup "Retry-After").getD ""
  if ra = "" then none
  else
    match jsParseInt ra with
    | .nan => none
    | .val q => some q

/-- Model of `ErrorMapper.mapAxiosError`: classifies a raw failure into a
`CarrierError`. A failure that is already a `CarrierError` matches neither
the axios-error guard nor `SyntaxError`, so it falls through to the generic
branch and is wrapped into a `CarrierUnknownError` carrying its message. -/
def mapAxiosError (error : RawFailure) (carrierCode : String) : CarrierErrorModel :=
  match error with
  | .axios e =>
    match e.response with
    | none =>
      if e.code = some "ECONNABORTED" ∨ e.code = some "ETIMEDOUT" then
        CarrierNetworkError ("Request timeout: " ++ e.message) carrierCode "TIMEOUT"
      else
        CarrierNetworkError ("Network error: " ++ e.message) carrierCode "NETWORK_ERROR"
    | some resp =>
      let status := resp.status
      let errorMessage := extractErrorMessage resp.data
      let errorCode := extractErrorCode resp.data
      if status = 401 ∨ status = 403 then
        CarrierAuthError errorMessage carrierCode errorCode (some status)
      else if status = 400 ∨ status = 422 then
        CarrierValidationError errorMessage carrierCode errorCode (some status)
      else if status = 429 then
        CarrierRateLimitError errorMessage carrierCode errorCode
          (extractRetryAfter resp.headers)
      else if status = 500 ∨ status = 502 ∨ status = 503 ∨ status = 504 then
        CarrierServiceError errorMessage carrierCode errorCode (some status)
      else if 400 ≤ status ∧ status < 500 then
        CarrierValidationError errorMessage carrierCode errorCode (some status)
      else if 500 ≤ status then
        CarrierServiceError errorMessage carrierCode errorCode (some status)
      else
        CarrierUnknownError errorMessage carrierCode errorCode (some status)
  | .parseErr msg =>
    CarrierResponseParseError ("Failed to parse carrier response: " ++ msg)
      carrierCode "PARSE_ERROR" none
  | .carrierError e =>
    CarrierUnknownError e.message carrierCode "UNKNOWN_ERROR" none
  | .genericError msg =>
    CarrierUnknownError msg carrierCode "UNKNOWN_ERROR" none

/-- Model of `RetryOptions` from `common/utils/retry.ts` (the optional
`isRetryable` override is not supplied anywhere in the pipeline; the default
check reads `CarrierError.isRetryable`, which is modelled directly in the
engine below). -/
structure RetryOptions where
  maxRetries : Nat
  initialDelayMs : ℚ
  maxDelayMs : ℚ
  backoffMultiplier : ℚ
  useJitter : Bool
deriving Repr, DecidableEq

/-- The built-in `DEFAULT_RETRY_OPTIONS`. -/
def DEFAULT_RETRY_OPTIONS : RetryOptions :=
  ⟨3, 1000, 10000, 2, true⟩

/-- Model of `Partial<RetryOptions>`: each field optionally present. -/
structure PartialRetryOptions where
  maxRetries : Option Nat
  initialDelayMs : Option ℚ
  maxDelayMs : Option ℚ
  backoffMultiplier : Option ℚ
  useJitter : Option Bool
deriving Repr, DecidableEq

/-- The spread `{ ...DEFAULT_RETRY_OPTIONS, ...options }` at the top of
`withRetry`: supplied fields win, missing fields fall back to the defaults. -/
def mergeRetryOptions (options : PartialRetryOptions) : RetryOptions :=
  ⟨options.maxRetries.getD DEFAULT_RETRY_OPTIONS.maxRetries,
   options.initialDelayMs.getD DEFAULT_RETRY_OPTIONS.initialDelayMs,
   options.maxDelayMs.getD DEFAULT_RETRY_OPTIONS.maxDelayMs,
   options.backoffMultiplier.getD DEFAULT_RETRY_OPTIONS.backoffMultiplier,
   options.useJitter.getD DEFAULT_RETRY_OPTIONS.useJitter⟩

/-- Model of `calculateDelay`: exponential delay capped at `maxDelayMs`,
with a jitter of plus or minus 25 percent when enabled, floored to an
integer. `rand` stands for the `Math.random()` draw (a value in `[0, 1)`). -/
def calculateDelay (attempt : Nat) (options : RetryOptions) (rand : ℚ) : ℤ :=
  let exponential := options.initialDelayMs * options.backoffMultiplier ^ attempt
  let capped := min exponential options.maxDelayMs
  let jittered :=
    if options.useJitter then
      let jitterRange := capped * (1 / 4)
      let jitter := rand * jitterRange * 2 - jitterRange
      capped + jitter
    else capped
  Int.floor jittered

/-- Recursive core of `withRetry`. The loop `while (attempt <= maxRetries)`
is run with `remaining = maxRetries - attempt` as structural fuel, so
`remaining = 0` is exactly the `attempt === opts.maxRetries` exit. `attempts`
is the oracle giving each attempt's outcome and `rand` the `Math.random()`
draw used for that attempt's backoff. Returns the final outcome together
with the sequence of inter-attempt delays actually slept. -/
def withRetryAux {α : Type} (opts : RetryOptions)
    (attempts : Nat → Except CarrierErrorModel α) (rand : Nat → ℚ) :
    Nat → Nat → Except CarrierErrorModel α × List ℤ
  | attempt, remaining =>
    match attempts attempt with
    | .ok a => (.ok a, [])
    | .error e =>
      match remaining with
      | 0 => (.error e, [])
      | r + 1 =>
        if e.isRetryable then
          let d := calculateDelay attempt opts (rand attempt)
          let rest := withRetryAux opts attempts rand (attempt + 1) r
          (rest.1, d :: rest.2)
        else (.error e, [])

/-- Model of `withRetry` applied to already-merged options: attempt counter
starts at 0, at most `maxRetries` extra attempts. -/
def withRetry {α : Type} (opts : RetryOptions)
    (attempts : Nat → Except CarrierErrorModel α) (rand : Nat → ℚ) :
    Except CarrierErrorModel α × List ℤ :=
  withRetryAux opts attempts rand 0 opts.maxRetries

/-- Number of attempts a `withRetry` run actually performed: one more than
the number of inter-attempt sleeps. -/
def attemptsPerformed {α : Type} (opts : RetryOptions)
    (attempts : Nat → Except CarrierErrorModel α) (rand : Nat → ℚ) : Nat :=
  (withRetry opts attempts rand).2.length + 1

/-- Mutable instance state of `UpsAuthService`: the cached token string (or
`null`), its expiry timestamp in epoch milliseconds, and the in-flight
refresh promise, identified here by a refresh id. -/
structure AuthState where
  cachedToken : Option String
  expiresAt : ℤ
  refreshPromise : Option Nat
deriving Repr, DecidableEq

/-- Fresh `UpsAuthService` instance state: `cachedToken = null`,
`expiresAt = 0`, no refresh in flight. -/
def initialAuthState : AuthState := ⟨none, 0, none⟩

/-- The 60-second proactive-refresh buffer `TOKEN_BUFFER_MS`. -/
def TOKEN_BUFFER_MS : ℤ := 60 * 1000

/-- Model of `isTokenValid`: `Date.now() < this.expiresAt - TOKEN_BUFFER_MS`. -/
def isTokenValid (now : ℤ) (s : AuthState) : Bool :=
  now < s.expiresAt - TOKEN_BUFFER_MS

/-- JavaScript truthiness of `this.cachedToken` (a `null` or empty string is
falsy, so the guard `this.cachedToken && this.isTokenValid()` skips it). -/
def tokenTruthy : Option String → Bool
  | some s => s ≠ ""
  | none => false

/-- Where a `getToken()` call gets its value from: the hard-coded mock token,
a cache hit, awaiting the refresh already in flight, or a refresh this call
itself starts. Refreshes are identified by ids handed out by the trace. -/
inductive TokenSource where
  | mockToken
  | cacheHit : String → TokenSource
  | joinRefresh : Nat → TokenSource
  | newRefresh : Nat → TokenSource
deriving Repr, DecidableEq

/-- The synchronous prefix of `getToken()` — everything it decides before its
first suspension point, executed atomically by the event loop: return the
mock token in mock mode, return the cached token if truthy and valid, join
the in-flight refresh if one exists, otherwise register a new refresh in
`this.refreshPromise` and start it (with fresh id `freshId`). -/
def getTokenStart (mockMode : Bool) (now : ℤ) (freshId : Nat) (s : AuthState) :
    TokenSource × AuthState :=
  if mockMode then (.mockToken, s)
  else if tokenTruthy s.cachedToken && isTokenValid now s then
    (.cacheHit (s.cachedToken.getD ""), s)
  else
    match s.refreshPromise with
    | some rid => (.joinRefresh rid, s)
    | none => (.newRefresh freshId, { s with refreshPromise := some freshId })

/-- Model of `invalidate()`: clears the token and expiry; the in-flight
refresh promise, if any, is untouched. -/
def invalidate (s : AuthState) : AuthState :=
  { s with cachedToken := none, expiresAt := 0 }

/-- Outcome of one credential exchange (`acquireToken`): a token with the
issue time and lifetime reported by the exchange response, or a failure
carrying the classified error. -/
inductive RefreshOutcome where
  | success : String → ℤ → ℤ → RefreshOutcome
  | failure : CarrierErrorModel → RefreshOutcome

/-- Expiry computation in `acquireToken`:
`expiresAt = issued_at + expires_in * 1000`. -/
def computeExpiresAt (issuedAt expiresInSeconds : ℤ) : ℤ :=
  issuedAt + expiresInSeconds * 1000

/-- Settlement of the in-flight refresh: on success `acquireToken` caches the
token and its computed expiry; on any failure it calls `invalidate()` before
the error propagates. In both cases the `finally` in `getToken` clears
`this.refreshPromise`. -/
def completeRefresh (o : RefreshOutcome) (_s : AuthState) : AuthState :=
  match o with
  | .success tok issuedAt expiresIn =>
    ⟨some tok, computeExpiresAt issuedAt expiresIn, none⟩
  | .failure _ => ⟨none, 0, none⟩

/-- Synchronous prefixes of `n` concurrent `getToken()` calls run back to
back with no refresh completing in between (the single-flight window). Each
call that starts a refresh consumes the next fresh id. Returns the source
each call will resolve from and the final state. -/
def runStarts (mockMode : Bool) (now : ℤ) (freshId : Nat) (s : AuthState) :
    Nat → List TokenSource × AuthState
  | 0 => ([], s)
  | n + 1 =>
    let step := getTokenStart mockMode now freshId s
    let nextId : Nat :=
      match step.1 with
      | .newRefresh _ => freshId + 1
      | _ => freshId
    let rest := runStarts mockMode now nextId step.2 n
    (step.1 :: rest.1, rest.2)

/-- Value a `getToken()` call ultimately resolves to, given the outcome of
every refresh: callers that joined or started refresh `rid` all observe
refresh `rid`'s outcome. -/
def resolveToken (outcomes : Nat → RefreshOutcome) :
    TokenSource → Except CarrierErrorModel String
  | .mockToken => .ok "mock_token_12345"
  | .cacheHit v => .ok v
  | .joinRefresh rid =>
    match outcomes rid with
    | .success tok _ _ => .ok tok
    | .failure e => .error e
  | .newRefresh rid =>
    match outcomes rid with
    | .success tok _ _ => .ok tok
    | .failure e => .error e

/-- Count of credential exchanges actually performed by a batch of
`getToken()` calls: the number of `newRefresh` sources among them. -/
def exchangeCount (sources : List TokenSource) : Nat :=
  sources.countP fun src =>
    match src with
    | .newRefresh _ => true
    | _ => false

/-- Domain address record (`AddressSchema` input shape). -/
structure AddressModel where
  addressLines : List String
  city : String
  stateProvinceCode : Option String
  postalCode : String
  countryCode : String
  isResidential : Option Bool
deriving Repr, DecidableEq

/-- Domain package dimensions (`PackageDimensionsSchema` input shape); the
unit string must be one of the `DimensionUnitSchema` enum values. -/
structure PackageDimensionsModel where
  length : ℚ
  width : ℚ
  height : ℚ
  unit : String
deriving Repr, DecidableEq

/-- Domain package weight (`PackageWeightSchema` input shape). -/
structure PackageWeightModel where
  value : ℚ
  unit : String
deriving Repr, DecidableEq

/-- Domain package record (`PackageSchema` input shape). -/
structure PackageModel where
  weight : PackageWeightModel
  dimensions : Option PackageDimensionsModel
  packagingType : Option String
  declaredValue : Option ℚ
  currency : Option String
deriving Repr, DecidableEq

/-- Domain rate request (`RateRequestSchema` input shape; the optional
`pickupDate : z.date()` field carries no validatable constraint and is not
modelled). -/
structure RateRequestModel where
  origin : AddressModel
  destination : AddressModel
  packages : List PackageModel
  shipperName : Option String
  accountNumber : Option String
  serviceCode : Option String
  requestNegotiatedRates : Option Bool
deriving Repr, DecidableEq

/-- Characters of a string after JavaScript `String.prototype.trim` (the
transform zod's `.trim()` applies before its length checks): whitespace
stripped from both ends. -/
def trimmedChars (s : String) : List Char :=
  ((s.data.dropWhile Char.isWhitespace).reverse.dropWhile Char.isWhitespace).reverse

/-- The `z.string().trim().min(1)` check: nonempty after trimming. -/
def validTrimmedString (s : String) : Bool :=
  1 ≤ (trimmedChars s).length

/-- Success condition of `AddressSchema.safeParse`: one to three nonempty
address lines, nonempty city and postal code, a state or province code of
trimmed length 1 to 10 when present, and a two-character country code. -/
def validAddress (a : AddressModel) : Bool :=
  (1 ≤ a.addressLines.length) && (a.addressLines.length ≤ 3) &&
  a.addressLines.all validTrimmedString &&
  validTrimmedString a.city &&
  (match a.stateProvinceCode with
   | none => true
   | some sp => validTrimmedString sp && (trimmedChars sp).length ≤ 10) &&
  validTrimmedString a.postalCode &&
  (a.countryCode.length == 2)

/-- Success condition of `PackageDimensionsSchema.safeParse`: positive
length, width and height with an `IN` or `CM` unit. -/
def validDimensions (d : PackageDimensionsModel) : Bool :=
  (0 < d.length) && (0 < d.width) && (0 < d.height) &&
  (d.unit == "IN" || d.unit == "CM")

/-- Success condition of `PackageSchema.safeParse`: positive weight with an
`LB` or `KG` unit, valid dimensions when present, positive declared value
when present, and a three-character currency code when present (`USD` is
defaulted when absent). -/
def validPackage (p : PackageModel) : Bool :=
  (0 < p.weight.value) && (p.weight.unit == "LB" || p.weight.unit == "KG") &&
  (match p.dimensions with
   | none => true
   | some d => validDimensions d) &&
  (match p.declaredValue with
   | none => true
   | some v => 0 < v) &&
  (match p.currency with
   | none => true
   | some c => c.length == 3)

/-- Success condition of `RateRequestSchema.safeParse`: valid origin and
destination addresses and at least one valid package. -/
def validRateRequest (r : RateRequestModel) : Bool :=
  validAddress r.origin && validAddress r.destination &&
  (1 ≤ r.packages.length) && r.packages.all validPackage

/-- The static `UPS_SERVICE_CODES` lookup table from `ups.constants.ts`. -/
def UPS_SERVICE_CODES : List (String × String) :=
  [("01", "UPS Next Day Air"),
   ("02", "UPS 2nd Day Air"),
   ("03", "UPS Ground"),
   ("12", "UPS 3 Day Select"),
   ("13", "UPS Next Day Air Saver"),
   ("14", "UPS Next Day Air Early"),
   ("59", "UPS 2nd Day Air A.M."),
   ("07", "UPS Worldwide Express"),
   ("08", "UPS Worldwide Expedited"),
   ("11", "UPS Standard"),
   ("54", "UPS Worldwide Express Plus"),
   ("65", "UPS Worldwide Saver"),
   ("96", "UPS Worldwide Express Freight"),
   ("92", "UPS SurePost - Less than 1 lb"),
   ("93", "UPS SurePost - 1 lb or Greater"),
   ("94", "UPS SurePost - BPM"),
   ("95", "UPS SurePost - Media Mail")]

/-- JavaScript `a || b` over an optional string `a`: a missing or empty
string falls through to `b`. -/
def jsStrOr (a : Option String) (b : String) : String :=
  match a with
  | some s => if s ≠ "" then s else b
  | none => b

/-- UPS monetary charge (`UpsCharges`): currency code plus a decimal string. -/
structure UpsCharges where
  CurrencyCode : String
  MonetaryValue : String
deriving Repr, DecidableEq

/-- UPS service descriptor (`UpsService` wire type). -/
structure UpsServiceInfo where
  Code : String
  Description : Option String
deriving Repr, DecidableEq

/-- UPS unit-of-measurement wrapper. -/
structure UpsUnitOfMeasurement where
  Code : String
  Description : Option String
deriving Repr, DecidableEq

/-- UPS billing weight (`UpsBillingWeight`). -/
structure UpsBillingWeight where
  UnitOfMeasurement : UpsUnitOfMeasurement
  Weight : String
deriving Repr, DecidableEq

/-- UPS negotiated rate charges wrapper. -/
structure UpsNegotiatedRateCharges where
  TotalCharge : UpsCharges
deriving Repr, DecidableEq

/-- UPS guaranteed-delivery block. -/
structure UpsGuaranteedDelivery where
  BusinessDaysInTransit : Option String
deriving Repr, DecidableEq

/-- UPS estimated-arrival date block. -/
structure UpsArrival where
  Date : Option String
  Time : Option String
deriving Repr, DecidableEq

/-- UPS estimated arrival inside `TimeInTransit.ServiceSummary`. -/
structure UpsEstimatedArrival where
  Arrival : Option UpsArrival
  BusinessDaysInTransit : Option String
  DayOfWeek : Option String
deriving Repr, DecidableEq

/-- UPS `TimeInTransit.ServiceSummary` block. -/
structure UpsServiceSummary where
  EstimatedArrival : Option UpsEstimatedArrival
deriving Repr, DecidableEq

/-- UPS time-in-transit block (`UpsTimeInTransit`). -/
structure UpsTimeInTransit where
  PickupDate : Option String
  ServiceSummary : Option UpsServiceSummary
deriving Repr, DecidableEq

/-- UPS rated shipment (`UpsRatedShipment`); `RatedShipmentAlert` and
`RatedPackage` are never read by the mapper and are not modelled. -/
structure UpsRatedShipment where
  Service : UpsServiceInfo
  BillingWeight : Option UpsBillingWeight
  TransportationCharges : UpsCharges
  ServiceOptionsCharges : Option UpsCharges
  TotalCharges : UpsCharges
  NegotiatedRateCharges : Option UpsNegotiatedRateCharges
  GuaranteedDelivery : Option UpsGuaranteedDelivery
  TimeInTransit : Option UpsTimeInTransit
deriving Repr, DecidableEq

/-- UPS response status block. -/
structure UpsResponseStatus where
  Code : String
  Description : String
deriving Repr, DecidableEq

/-- UPS response alert (`UpsAlert`). -/
structure UpsAlert where
  Code : String
  Description : String
deriving Repr, DecidableEq

/-- The `RateResponse.Response` header block. -/
structure UpsResponseHeader where
  ResponseStatus : UpsResponseStatus
  Alert : Option (List UpsAlert)
  CustomerContext : Option String
deriving Repr, DecidableEq

/-- The `RateResponse` body. -/
structure UpsRateResponseBody where
  Response : UpsResponseHeader
  RatedShipment : List UpsRatedShipment
deriving Repr, DecidableEq

/-- UPS rate response wire structure (`UpsRateResponse`). -/
structure UpsRateResponse where
  RateResponse : UpsRateResponseBody
deriving Repr, DecidableEq

/-- Billing weight inside a domain quote. -/
structure BillingWeightQuote where
  value : JsNum
  unit : String
deriving Repr, DecidableEq

/-- Domain `RateQuote` record as produced by the mapper (numeric fields are
`JsNum` since they come from `parseFloat`/`parseInt` on wire strings). -/
structure RateQuote where
  carrier : String
  serviceCode : String
  serviceName : String
  totalCharges : JsNum
  currency : String
  baseCharges : JsNum
  serviceCharges : Option JsNum
  negotiatedCharges : Option JsNum
  billingWeight : Option BillingWeightQuote
  transitDays : Option JsNum
  guaranteedDelivery : Option Bool
  estimatedDeliveryDate : Option String
deriving Repr, DecidableEq

/-- Domain `RateResponse` record. -/
structure RateResponseModel where
  quotes : List RateQuote
  warnings : Option (List String)
  transactionId : Option String
deriving Repr, DecidableEq

/-- JavaScript truthiness of an optional string obtained by optional
chaining: missing or empty means falsy. -/
def optStrTruthy : Option String → Bool
  | some s => s ≠ ""
  | none => false

/-- Model of `UpsMapper.toRateQuote`: service name from the static lookup,
falling back to the carrier description, then to the raw code; charges
parsed from their decimal strings; billing weight, transit days, guaranteed
delivery and estimated delivery date populated only when the source carries
them (`TimeInTransit` overriding the guaranteed-delivery transit days). -/
def toRateQuote (ratedShipment : UpsRatedShipment) : RateQuote :=
  let serviceCode := ratedShipment.Service.Code
  let serviceName :=
    jsStrOr (UPS_SERVICE_CODES.lookup serviceCode)
      (jsStrOr ratedShipment.Service.Description serviceCode)
  let quote : RateQuote :=
    { carrier := "ups"
      serviceCode := serviceCode
      serviceName := serviceName
      totalCharges := jsParseFloat ratedShipment.TotalCharges.MonetaryValue
      currency := ratedShipment.TotalCharges.CurrencyCode
      baseCharges := jsParseFloat ratedShipment.TransportationCharges.MonetaryValue
      serviceCharges :=
        ratedShipment.ServiceOptionsCharges.map fun c => jsParseFloat c.MonetaryValue
      negotiatedCharges :=
        ratedShipment.NegotiatedRateCharges.map fun n =>
          jsParseFloat n.TotalCharge.MonetaryValue
      billingWeight := none
      transitDays := none
      guaranteedDelivery := none
      estimatedDeliveryDate := none }
  let quote :=
    match ratedShipment.BillingWeight with
    | some bw =>
      { quote with
          billingWeight := some
            ⟨jsParseFloat bw.Weight,
             if bw.UnitOfMeasurement.Code == "LBS" then "LB" else "KG"⟩ }
    | none => quote
  let gdDays := ratedShipment.GuaranteedDelivery.bind fun g => g.BusinessDaysInTransit
  let quote :=
    if optStrTruthy gdDays then
      { quote with
          transitDays := some (jsParseInt (gdDays.getD ""))
          guaranteedDelivery := some true }
    else quote
  let titArrivalDate :=
    (((ratedShipment.TimeInTransit.bind fun t => t.ServiceSummary).bind
        fun ss => ss.EstimatedArrival).bind fun ea => ea.Arrival).bind
      fun a => a.Date
  let titDays :=
    ((ratedShipment.TimeInTransit.bind fun t => t.ServiceSummary).bind
        fun ss => ss.EstimatedArrival).bind fun ea => ea.BusinessDaysInTransit
  if optStrTruthy titArrivalDate then
    let quote := { quote with estimatedDeliveryDate := some (titArrivalDate.getD "") }
    if optStrTruthy titDays then
      { quote with transitDays := some (jsParseInt (titDays.getD "")) }
    else quote
  else quote

/-- Model of `UpsMapper.fromUpsRateResponse`: one quote per rated shipment in
order, warnings lifted from the response alerts. -/
def fromUpsRateResponse (upsResponse : UpsRateResponse)
    (transactionId : Option String) : RateResponseModel :=
  { quotes := upsResponse.RateResponse.RatedShipment.map toRateQuote
    warnings :=
      upsResponse.RateResponse.Response.Alert.map fun alerts =>
        alerts.map fun alert => alert.Description
    transactionId := transactionId }

/-- Field lookup distinguishing a missing key (`none`) from a present value,
as zod's `.optional()` does. -/
def jsonField (v : JsonVal) (k : String) : Option JsonVal :=
  match v with
  | .obj fields => fields.lookup k
  | _ => none

/-- Whether a JSON value is a string (`z.string()`). -/
def isJsonStr : JsonVal → Bool
  | .str _ => true
  | _ => false

/-- One entry of the `Alert` array in `UpsRateResponseSchema`:
`{Code: z.string(), Description: z.string()}`. -/
def checkUpsAlert (v : JsonVal) : Bool :=
  match v with
  | .obj _ => isJsonStr (jsGet v "Code") && isJsonStr (jsGet v "Description")
  | _ => false

/-- Success condition of `UpsRateResponseSchema.safeParse` from
`ups.service.ts`: a `RateResponse` object holding a `Response` object with a
string-typed `ResponseStatus`, an optional `Alert` array, an optional
`TransactionReference` with optional string `CustomerContext`, and a
`RatedShipment` array whose entries are unconstrained (`z.array(z.any())`). -/
def upsRateResponseSchemaCheck (v : JsonVal) : Bool :=
  match jsonField v "RateResponse" with
  | none => false
  | some rr =>
    (match jsonField rr "Response" with
     | none => false
     | some resp =>
       (match jsonField resp "ResponseStatus" with
        | none => false
        | some rs => isJsonStr (jsGet rs "Code") && isJsonStr (jsGet rs "Description")) &&
       (match jsonField resp "Alert" with
        | none => true
        | some a =>
          match a with
          | .arr xs => xs.all checkUpsAlert
          | _ => false) &&
       (match jsonField resp "TransactionReference" with
        | none => true
        | some t =>
          match t with
          | .obj _ =>
            (match jsonField t "CustomerContext" with
             | none => true
             | some c => isJsonStr c)
          | _ => false)) &&
    (match jsonField rr "RatedShipment" with
     | some (.arr _) => true
     | _ => false)

/-- Decode a JSON value as a string. -/
def decodeStr : JsonVal → Option String
  | .str s => some s
  | _ => none

/-- Decode an optional string field. -/
def decodeOptStr (v : JsonVal) (k : String) : Option String :=
  (jsonField v k).bind decodeStr

/-- Decode a `UpsCharges` block. -/
def decodeCharges (v : JsonVal) : Option UpsCharges := do
  let currency ← decodeStr (jsGet v "CurrencyCode")
  let monetary ← decodeStr (jsGet v "MonetaryValue")
  pure ⟨currency, monetary⟩

/-- Decode a `UpsBillingWeight` block. -/
def decodeBillingWeight (v : JsonVal) : Option UpsBillingWeight := do
  let uom := jsGet v "UnitOfMeasurement"
  let code ← decodeStr (jsGet uom "Code")
  let weight ← decodeStr (jsGet v "Weight")
  pure ⟨⟨code, decodeOptStr uom "Description"⟩, weight⟩

/-- Decode a `UpsTimeInTransit` block. -/
def decodeTimeInTransit (v : JsonVal) : Option UpsTimeInTransit :=
  let summary :=
    (jsonField v "ServiceSummary").map fun ss =>
      let ea :=
        (jsonField ss "EstimatedArrival").map fun eav =>
          let arrival :=
            (jsonField eav "Arrival").map fun av =>
              UpsArrival.mk (decodeOptStr av "Date") (decodeOptStr av "Time")
          UpsEstimatedArrival.mk arrival
            (decodeOptStr eav "BusinessDaysInTransit") (decodeOptStr eav "DayOfWeek")
      UpsServiceSummary.mk ea
  some ⟨decodeOptStr v "PickupDate", summary⟩

/-- Decode one `RatedShipment` entry to the typed wire model. The zod schema
leaves these entries unconstrained (`z.any()`); an entry this decoder
rejects is one on which the mapper's property accesses would throw a runtime
`TypeError`, which the pipeline model routes through its catch block as a
generic error. -/
def decodeRatedShipment (v : JsonVal) : Option UpsRatedShipment := do
  let svc := jsGet v "Service"
  let code ← decodeStr (jsGet svc "Code")
  let total ← decodeCharges (jsGet v "TotalCharges")
  let transportation ← decodeCharges (jsGet v "TransportationCharges")
  let serviceOptions ←
    match jsonField v "ServiceOptionsCharges" with
    | none => pure none
    | some c => (decodeCharges c).map some
  let negotiated ←
    match jsonField v "NegotiatedRateCharges" with
    | none => pure none
    | some n =>
      (decodeCharges (jsGet n "TotalCharge")).map
        (fun tc => some (UpsNegotiatedRateCharges.mk tc))
  let billing ←
    match jsonField v "BillingWeight" with
    | none => pure none
    | some b => (decodeBillingWeight b).map some
  let guaranteed :=
    (jsonField v "GuaranteedDelivery").map fun g =>
      UpsGuaranteedDelivery.mk (decodeOptStr g "BusinessDaysInTransit")
  let tit ←
    match jsonField v "TimeInTransit" with
    | none => pure none
    | some t => (decodeTimeInTransit t).map some
  pure ⟨⟨code, decodeOptStr svc "Description"⟩, billing, transportation,
    serviceOptions, total, negotiated, guaranteed, tit⟩

/-- Decode a schema-valid body to the typed `UpsRateResponse` consumed by the
mapper. -/
def decodeUpsRateResponse (v : JsonVal) : Option UpsRateResponse := do
  let rr := jsGet v "RateResponse"
  let resp := jsGet rr "Response"
  let rs := jsGet resp "ResponseStatus"
  let rsCode ← decodeStr (jsGet rs "Code")
  let rsDesc ← decodeStr (jsGet rs "Description")
  let alerts ←
    match jsonField resp "Alert" with
    | none => pure none
    | some (.arr xs) =>
      (xs.mapM fun a => do
        let c ← decodeStr (jsGet a "Code")
        let d ← decodeStr (jsGet a "Description")
        pure (UpsAlert.mk c d)).map some
    | some _ => none
  let shipments ←
    match jsonField rr "RatedShipment" with
    | some (.arr xs) => xs.mapM decodeRatedShipment
    | _ => none
  let ctx := decodeOptStr (jsGet resp "TransactionReference") "CustomerContext"
  pure ⟨⟨⟨⟨rsCode, rsDesc⟩, alerts, ctx⟩, shipments⟩⟩

/-- Observable side effects of one rate-fetch attempt: acquiring (consuming)
a token, making the transport call, and invalidating the token cache. -/
inductive PipelineEvent where
  | tokenAcquire
  | transportCall
  | invalidateToken
deriving Repr, DecidableEq

/-- Environment-supplied outcome of one attempt of `executeRateRequest`: the
token acquisition rejects with an already-classified error, the HTTP post
rejects with an axios error, or the HTTP post resolves with a status and
body. -/
inductive RateAttemptOutcome where
  | tokenFailure : CarrierErrorModel → RateAttemptOutcome
  | transportFailure : AxiosErrorModel → RateAttemptOutcome
  | httpResponse : Nat → JsonVal → RateAttemptOutcome

/-- Model of `UpsService.isAuthError`: the caught value has a `response`
object whose `status` is exactly 401. Only raw axios errors carry a
`response` property; classified `CarrierError`s and other errors do not. -/
def isAuthError : RawFailure → Bool
  | .axios e =>
    match e.response with
    | some r => r.status == 401
    | none => false
  | _ => false

/-- The `try` body of `UpsService.executeRateRequest`: acquire the token,
post the mapped request, validate the response body against
`UpsRateResponseSchema` (throwing `CarrierResponseParseError` on failure),
and map to the domain response. Returns the raw failure that reaches the
`catch` block, plus the effects performed. A schema-valid body the typed
decoder rejects is one whose shipment entries (unconstrained `z.any()` in
the schema) make the mapper throw at runtime; that error reaches the same
`catch`. -/
def rateAttemptBody (outcome : RateAttemptOutcome) (tid : String) :
    Except RawFailure RateResponseModel × List PipelineEvent :=
  match outcome with
  | .tokenFailure e => (.error (.carrierError e), [.tokenAcquire])
  | .transportFailure ax => (.error (.axios ax), [.tokenAcquire, .transportCall])
  | .httpResponse status data =>
    if upsRateResponseSchemaCheck data then
      match decodeUpsRateResponse data with
      | some r => (.ok (fromUpsRateResponse r (some tid)), [.tokenAcquire, .transportCall])
      | none => (.error (.genericError "TypeError"), [.tokenAcquire, .transportCall])
    else
      (.error (.carrierError
        (CarrierResponseParseError "Invalid response structure from UPS" "ups"
          "PARSE_ERROR" (some status))), [.tokenAcquire, .transportCall])

/-- Model of `UpsService.executeRateRequest`: run the try body; on any
failure, invalidate the token cache when `isAuthError` holds, then rethrow
the failure through `ErrorMapper.mapAxiosError`. -/
def executeRateRequest (outcome : RateAttemptOutcome) (tid : String) :
    Except CarrierErrorModel RateResponseModel × List PipelineEvent :=
  match rateAttemptBody outcome tid with
  | (.ok r, events) => (.ok r, events)
  | (.error raw, events) =>
    let events := if isAuthError raw then events ++ [.invalidateToken] else events
    (.error (mapAxiosError raw "ups"), events)

/-- The partial retry options `UpsService.getRates` passes to `withRetry`:
only `maxRetries`, `initialDelayMs` and `maxDelayMs` are supplied. -/
def upsRetryCallSiteOptions : PartialRetryOptions :=
  ⟨some 2, some 1000, some 5000, none, none⟩

/-- Model of `UpsService.getRates` generalized over the merged retry policy:
validate the request against the domain schema first (failing immediately as
`CarrierValidationError` with no effects), short-circuit to the fixture in
mock mode (no token, no transport), and otherwise run `executeRateRequest`
under the retry engine. `outcomes` gives each attempt's environment, `rand`
the jitter draws, `fixture` the mock fixture body, and `tid` the generated
transaction id. The event list concatenates the effects of every attempt
actually performed. -/
def getRatesWithPolicy (opts : RetryOptions) (mockMode : Bool)
    (fixture : UpsRateResponse) (request : RateRequestModel)
    (outcomes : Nat → RateAttemptOutcome) (rand : Nat → ℚ) (tid : String) :
    Except CarrierErrorModel RateResponseModel × List PipelineEvent :=
  if ¬ validRateRequest request then
    (.error (CarrierValidationError "Invalid rate request" "ups"
      "VALIDATION_ERROR" (some 400)), [])
  else if mockMode then
    (.ok (fromUpsRateResponse fixture (some tid)), [])
  else
    let run := withRetry opts (fun n => (executeRateRequest (outcomes n) tid).1) rand
    (run.1, (List.range (run.2.length + 1)).flatMap
      fun n => (executeRateRequest (outcomes n) tid).2)

/-- Model of `UpsService.getRates` with the retry policy actually used: the
call-site options merged over `DEFAULT_RETRY_OPTIONS`. -/
def getRates (mockMode : Bool) (fixture : UpsRateResponse)
    (request : RateRequestModel) (outcomes : Nat → RateAttemptOutcome)
    (rand : Nat → ℚ) (tid : String) :
    Except CarrierErrorModel RateResponseModel × List PipelineEvent :=
  getRatesWithPolicy (mergeRetryOptions upsRetryCallSiteOptions) mockMode
    fixture request outcomes rand tid

/-- Concrete valid rate request (the mock request used across the repository
test suite: Atlanta to New York, one five-pound package). -/
def sampleRateRequest : RateRequestModel :=
  { origin :=
      { addressLines := ["123 Main St"]
        city := "Atlanta"
        stateProvinceCode := some "GA"
        postalCode := "30301"
        countryCode := "US"
        isResidential := some false }
    destination :=
      { addressLines := ["456 Oak Ave"]
        city := "New York"
        stateProvinceCode := some "NY"
        postalCode := "10001"
        countryCode := "US"
        isResidential := some true }
    packages :=
      [{ weight := ⟨5, "LB"⟩
         dimensions := some ⟨10, 8, 6, "IN"⟩
         packagingType := none
         declaredValue := none
         currency := none }]
    shipperName := some "Acme Corp"
    accountNumber := none
    serviceCode := none
    requestNegotiatedRates := none }

/-- Concrete invalid rate request: an empty `packages` array fails the
`z.array(PackageSchema).min(1)` constraint. -/
def emptyPackagesRequest : RateRequestModel :=
  { sampleRateRequest with packages := [] }

/-- One rated shipment of the stub carrier response, parameterized by
service code and total-charge string. -/
def stubShipment (code charge : String) : UpsRatedShipment :=
  { Service := ⟨code, none⟩
    BillingWeight := none
    TransportationCharges := ⟨"USD", charge⟩
    ServiceOptionsCharges := none
    TotalCharges := ⟨"USD", charge⟩
    NegotiatedRateCharges := none
    GuaranteedDelivery := none
    TimeInTransit := none }

/-- Stub carrier response carrying three quoted services, codes 01/02/03
with total charges 28.10/19.45/12.35. -/
def stubRateResponse : UpsRateResponse :=
  ⟨⟨⟨⟨"1", "Success"⟩, none, none⟩,
    [stubShipment "01" "28.10",
     stubShipment "02" "19.45",
     stubShipment "03" "12.35"]⟩⟩

/-- Simulated 401 transport failure (no parsable body). -/
def unauthorizedAxiosError : AxiosErrorModel :=
  ⟨some ⟨401, .null, []⟩, none, "Request failed with status code 401"⟩

/-- Simulated 403 transport failure (no parsable body). -/
def forbiddenAxiosError : AxiosErrorModel :=
  ⟨some ⟨403, .null, []⟩, none, "Request failed with status code 403"⟩

/-- Simulated 429 transport failure with a `retry-after: 60` header. -/
def rateLimitedAxiosError : AxiosErrorModel :=
  ⟨some ⟨429, .null, [("retry-after", "60")]⟩, none,
    "Request failed with status code 429"⟩

/-- A carrier body that fails `UpsRateResponseSchema` validation (the shape
used by the repository's own malformed-response test). -/
def invalidStructureBody : JsonVal :=
  .obj [("invalid", .str "structure")]

/-- A persistent retryable failure used to drive the retry engine to
exhaustion. -/
def persistentServiceError : CarrierErrorModel :=
  CarrierServiceError "Service unavailable" "ups" "UNKNOWN" (some 503)

/-- The retry policy of the delay-sequence test: 2 extra attempts, 1000 ms
initial delay, 5000 ms cap, multiplier 2, jitter disabled. -/
def jitterFreePolicy : RetryOptions := ⟨2, 1000, 5000, 2, false⟩

/-- The error carried by a failed `Except`, if any. -/
def exceptError {ε α : Type} : Except ε α → Option ε
  | .error e => some e
  | .ok _ => none

/-- The value carried by a successful `Except`, if any. -/
def exceptOk {ε α : Type} : Except ε α → Option α
  | .error _ => none
  | .ok a => some a

theorem jsParseInt_sixty : jsParseInt "60" = JsNum.val 60 := by
  have hdata : "60".data.dropWhile Char.isWhitespace = ['6', '0'] := by decide
  have ht : takeDigits ['6', '0'] = (['6', '0'], []) := by decide
  have hd : digitsToNat ['6', '0'] = 60 := by decide
  simp +decide [jsParseInt, hdata, ht, hd]

theorem extractRetryAfter_sixty :
    extractRetryAfter [("retry-after", "60")] = some 60 := by
  simp [extractRetryAfter, jsParseInt_sixty]

/-- C5: the error classifier is a deterministic total mapping from response
presence, status and headers to error kind and retryable flag: no response
gives Network retryable; 401 and 403 give Auth non-retryable; 400 and 422
give Validation non-retryable; 429 gives RateLimit retryable carrying the
retry-after header extraction; every 5xx gives Service retryable; any other
4xx gives Validation non-retryable; anything else gives Unknown
non-retryable. -/
theorem classifier_table (cc : String) (e : AxiosErrorModel) :
    (e.response = none →
      (mapAxiosError (.axios e) cc).kind = .network ∧
      (mapAxiosError (.axios e) cc).isRetryable = true) ∧
    (∀ r : AxiosResponseModel, e.response = some r →
      ((r.status = 401 ∨ r.status = 403) →
        (mapAxiosError (.axios e) cc).kind = .auth ∧
        (mapAxiosError (.axios e) cc).isRetryable = false) ∧
      ((r.status = 400 ∨ r.status = 422) →
        (mapAxiosError (.axios e) cc).kind = .validation ∧
        (mapAxiosError (.axios e) cc).isRetryable = false) ∧
      (r.status = 429 →
        (mapAxiosError (.axios e) cc).kind = .rateLimit ∧
        (mapAxiosError (.axios e) cc).isRetryable = true ∧
        (mapAxiosError (.axios e) cc).retryAfterSeconds = extractRetryAfter r.headers) ∧
      (500 ≤ r.status →
        (mapAxiosError (.axios e) cc).kind = .service ∧
        (mapAxiosError (.axios e) cc).isRetryable = true) ∧
      (400 ≤ r.status → r.status < 500 →
        r.status ≠ 401 → r.status ≠ 403 → r.status ≠ 429 →
        (mapAxiosError (.axios e) cc).kind = .validation ∧
        (mapAxiosError (.axios e) cc).isRetryable = false) ∧
      (r.status < 400 →
        (mapAxiosError (.axios e) cc).kind = .unknown ∧
        (mapAxiosError (.axios e) cc).isRetryable = false)) := by
  constructor
  · intro hnone
    by_cases hc : e.code = some "ECONNABORTED" ∨ e.code = some "ETIMEDOUT"
    · simp [mapAxiosError, hnone, hc, CarrierNetworkError]
    · simp [mapAxiosError, hnone, hc, CarrierNetworkError]
  · intro r hr
    refine ⟨?_, ?_, ?_, ?_, ?_, ?_⟩
    · intro hs
      simp [mapAxiosError, hr, hs, CarrierAuthError]
    · intro hs
      have h₁ : ¬(r.status = 401 ∨ r.status = 403) := by omega
      simp [mapAxiosError, hr, hs, h₁, CarrierValidationError]
    · intro hs
      have h₁ : ¬(r.status = 401 ∨ r.status = 403) := by omega
      have h₂ : ¬(r.status = 400 ∨ r.status = 422) := by omega
      simp [mapAxiosError, hr, hs, h₁, h₂, CarrierRateLimitError]
    · intro hs
      have h₁ : ¬(r.status = 401 ∨ r.status = 403) := by omega
      have h₂ : ¬(r.status = 400 ∨ r.status = 422) := by omega
      have h₃ : r.status ≠ 429 := by omega
      by_cases h₄ : r.status = 500 ∨ r.status = 502 ∨ r.status = 503 ∨ r.status = 504
      · simp [mapAxiosError, hr, h₁, h₂, h₃, h₄, CarrierServiceError]
      · have h₅ : ¬(400 ≤ r.status ∧ r.status < 500) := by omega
        simp [mapAxiosError, hr, h₁, h₂, h₃, h₄, h₅, hs, CarrierServiceError]
    · intro h₄₀₀ h₅₀₀ h₁ h₂ h₃
      have hne₁ : ¬(r.status = 401 ∨ r.status = 403) := by omega
      by_cases hne₂ : r.status = 400 ∨ r.status = 422
      · simp [mapAxiosError, hr, hne₁, hne₂, CarrierValidationError]
      · have h5 : ¬(r.status = 500 ∨ r.status = 502 ∨ r.status = 503 ∨ r.status = 504) := by
          omega
        have h6 : 400 ≤ r.status ∧ r.status < 500 := ⟨h₄₀₀, h₅₀₀⟩
        simp [mapAxiosError, hr, hne₁, hne₂, h₃, h5, h6, CarrierValidationError]
    · intro hs
      have h₁ : ¬(r.status = 401 ∨ r.status = 403) := by omega
      have h₂ : ¬(r.status = 400 ∨ r.status = 422) := by omega
      have h₃ : r.status ≠ 429 := by omega
      have h₄ : ¬(r.status = 500 ∨ r.status = 502 ∨ r.status = 503 ∨ r.status = 504) := by
        omega
      have h₅ : ¬(400 ≤ r.status ∧ r.status < 500) := by omega
      have h₆ : ¬(500 ≤ r.status) := by omega
      simp [mapAxiosError, hr, h₁, h₂, h₃, h₄, h₅, h₆, CarrierUnknownError]

theorem classifier_table_witness :
    (mapAxiosError (.axios rateLimitedAxiosError) "ups").kind = .rateLimit ∧
    (mapAxiosError (.axios rateLimitedAxiosError) "ups").isRetryable = true ∧
    (mapAxiosError (.axios rateLimitedAxiosError) "ups").retryAfterSeconds = some 60 := by
  have h :=
    ((classifier_table "ups" rateLimitedAxiosError).2 ⟨429, .null, [("retry-after", "60")]⟩
      rfl).2.2.1 rfl
  exact ⟨h.1, h.2.1, by rw [h.2.2]; exact extractRetryAfter_sixty⟩

theorem runStarts_join (now : ℤ) (j rid : Nat) (s : AuthState)
    (hcache : (tokenTruthy s.cachedToken && isTokenValid now s) = false)
    (href : s.refreshPromise = some rid) (n : Nat) :
    runStarts false now j s n = (List.replicate n (.joinRefresh rid), s) := by
  induction n with
  | zero => simp [runStarts]
  | succ n ih =>
    have hstep : getTokenStart false now j s = (.joinRefresh rid, s) := by
      simp [getTokenStart, hcache, href]
    simp [runStarts, hstep, ih, List.replicate_succ]

/-- C1: single-flight token acquisition — for any number of concurrent
`getToken` calls issued while no valid credential is cached and no refresh
has completed, the first call starts exactly one credential exchange, every
other call joins it, and all calls resolve to that single exchange's
outcome (the shared token on success, the shared error on failure). -/
theorem getToken_single_flight (now : ℤ) (s : AuthState) (i n : Nat)
    (hcache : (tokenTruthy s.cachedToken && isTokenValid now s) = false)
    (hguard : s.refreshPromise = none) :
    (runStarts false now i s (n + 1)).1 =
      TokenSource.newRefresh i :: List.replicate n (.joinRefresh i) ∧
    exchangeCount (runStarts false now i s (n + 1)).1 = 1 ∧
    ∀ (outcomes : Nat → RefreshOutcome),
      ∀ src ∈ (runStarts false now i s (n + 1)).1,
        resolveToken outcomes src = resolveToken outcomes (.newRefresh i) := by
  have hstep : getTokenStart false now i s =
      (.newRefresh i, { s with refreshPromise := some i }) := by
    simp [getTokenStart, hcache, hguard]
  have hcache₁ :
      (tokenTruthy ({ s with refreshPromise := some i } : AuthState).cachedToken &&
        isTokenValid now { s with refreshPromise := some i }) = false := by
    simpa [isTokenValid, tokenTruthy] using hcache
  have hrest := runStarts_join now (i + 1) i { s with refreshPromise := some i }
    hcache₁ rfl n
  have hmain : runStarts false now i s (n + 1) =
      (TokenSource.newRefresh i :: List.replicate n (.joinRefresh i),
        { s with refreshPromise := some i }) := by
    simp [runStarts, hstep, hrest]
  refine ⟨by rw [hmain], ?_, ?_⟩
  · rw [hmain]
    simp [exchangeCount, List.countP_cons]
  · intro outcomes src hsrc
    rw [hmain] at hsrc
    rcases List.mem_cons.mp hsrc with h | h
    · rw [h]
    · rw [List.eq_of_mem_replicate h]
      simp [resolveToken]

theorem getToken_single_flight_witness :
    (runStarts false 0 0 initialAuthState 3).1 =
      [TokenSource.newRefresh 0, .joinRefresh 0, .joinRefresh 0] ∧
    exchangeCount (runStarts false 0 0 initialAuthState 3).1 = 1 := by
  have h := getToken_single_flight 0 initialAuthState 0 2 (by decide) rfl
  refine ⟨?_, h.2.1⟩
  rw [h.1]
  decide

theorem getTokenStart_cacheHit (now : ℤ) (i : Nat) (s : AuthState) (w : String)
    (h : (getTokenStart false now i s).1 = .cacheHit w) :
    s.cachedToken = some w := by
  simp only [getTokenStart, Bool.false_eq_true, if_false] at h
  split at h
  · rename_i hcond
    simp only at h
    injection h with h
    cases hv : s.cachedToken with
    | none => rw [hv] at hcond; simp [tokenTruthy] at hcond
    | some v =>
      rw [hv] at h
      simp at h
      rw [h]
  · split at h <;> simp at h

/-- C4: expiry buffer invariant — once the current time has reached the
cached credential's expiry minus the 60-second buffer, `getToken` never
serves the cached credential; it joins the in-flight refresh if one exists
and otherwise starts a fresh exchange. -/
theorem expiry_buffer (now : ℤ) (s : AuthState) (i : Nat) (v : String)
    (_hv : s.cachedToken = some v)
    (hexp : s.expiresAt - TOKEN_BUFFER_MS ≤ now) :
    (∀ w, (getTokenStart false now i s).1 ≠ .cacheHit w) ∧
    (s.refreshPromise = none →
      (getTokenStart false now i s).1 = .newRefresh i ∧
      (getTokenStart false now i s).2.refreshPromise = some i) := by
  have hvalid : isTokenValid now s = false := by
    simp [isTokenValid]
    omega
  have hcond : (tokenTruthy s.cachedToken && isTokenValid now s) = false := by
    simp [hvalid]
  constructor
  · intro w
    cases href : s.refreshPromise <;> simp [getTokenStart, hcond, href]
  · intro href
    simp [getTokenStart, hcond, href]

theorem expiry_buffer_witness :
    (getTokenStart false 1000000 7 ⟨some "tok", 1050000, none⟩).1 =
      TokenSource.newRefresh 7 := by
  have h := expiry_buffer 1000000 ⟨some "tok", 1050000, none⟩ 7 "tok" rfl (by decide)
  exact (h.2 rfl).1

/-- C8: invalidate-then-acquire ordering — after `invalidate()`, an
immediately following `getToken` can never serve a cached credential, and
when no refresh is in flight it always starts a new credential exchange;
moreover any later cache hit can only return the token produced by a refresh
that completed after the invalidation, never the invalidated value. -/
theorem invalidate_then_acquire (now : ℤ) (s : AuthState) (i : Nat) :
    (∀ w, (getTokenStart false now i (invalidate s)).1 ≠ .cacheHit w) ∧
    (s.refreshPromise = none →
      (getTokenStart false now i (invalidate s)).1 = .newRefresh i ∧
      (getTokenStart false now i (invalidate s)).2.refreshPromise = some i) ∧
    (∀ (o : RefreshOutcome) (now₂ : ℤ) (j : Nat) (w : String),
      (getTokenStart false now₂ j (completeRefresh o (invalidate s))).1 = .cacheHit w →
      ∃ issuedAt expiresIn : ℤ, o = .success w issuedAt expiresIn) := by
  have hcond : (tokenTruthy (invalidate s).cachedToken &&
      isTokenValid now (invalidate s)) = false := by
    simp [invalidate, tokenTruthy]
  refine ⟨?_, ?_, ?_⟩
  · intro w
    cases href : (invalidate s).refreshPromise <;> simp [getTokenStart, hcond, href]
  · intro href
    have href' : (invalidate s).refreshPromise = none := by simp [invalidate, href]
    simp [getTokenStart, hcond, href']
  · intro o now₂ j w hhit
    have hcache := getTokenStart_cacheHit now₂ j _ w hhit
    cases o with
    | success tok issuedAt expiresIn =>
      simp [completeRefresh] at hcache
      exact ⟨issuedAt, expiresIn, by rw [hcache]⟩
    | failure e => simp [completeRefresh] at hcache

theorem invalidate_then_acquire_witness :
    (getTokenStart false 500 3 (invalidate ⟨some "stale", 999999999, none⟩)).1 =
      TokenSource.newRefresh 3 := by
  exact ((invalidate_then_acquire 500 ⟨some "stale", 999999999, none⟩ 3).2.1 rfl).1

/-- C6: retry backoff — with jitter disabled the delay before retry `n + 1`
is exactly `min(initialDelayMs * backoffMultiplier ^ n, maxDelayMs)`
(floored), and the pipeline policy of 2 extra attempts, 1000 ms initial
delay, 5000 ms cap and multiplier 2 observes exactly the delay sequence
[1000, 2000] against a persistently failing retryable operation. -/
theorem retry_backoff_delays :
    (∀ (n : Nat) (opts : RetryOptions) (r : ℚ), opts.useJitter = false →
      calculateDelay n opts r =
        Int.floor (min (opts.initialDelayMs * opts.backoffMultiplier ^ n) opts.maxDelayMs)) ∧
    (withRetry jitterFreePolicy
      (fun _ => (.error persistentServiceError : Except CarrierErrorModel RateResponseModel))
      (fun _ => 0)).2 = [1000, 2000] := by
  constructor
  · intro n opts r h
    simp [calculateDelay, h]
  · have h0 : calculateDelay 0 (⟨2, 1000, 5000, 2, false⟩ : RetryOptions) 0 = 1000 := by
      simp [calculateDelay]
      norm_num [min_def, Int.floor_eq_iff]
    have h1 : calculateDelay 1 (⟨2, 1000, 5000, 2, false⟩ : RetryOptions) 0 = 2000 := by
      simp [calculateDelay]
      norm_num [min_def, Int.floor_eq_iff]
    simp [withRetry, withRetryAux, jitterFreePolicy, persistentServiceError,
      CarrierServiceError, h0, h1]

theorem retry_backoff_delays_witness :
    calculateDelay 3 jitterFreePolicy 7 = 5000 := by
  rw [retry_backoff_delays.1 3 jitterFreePolicy 7 rfl]
  show Int.floor (min ((1000 : ℚ) * 2 ^ 3) 5000) = 5000
  norm_num [min_def, Int.floor_eq_iff]

/-- C10: the retry engine merges its partial options over the built-in
defaults, so the pipeline's call-site options (which supply only
`maxRetries`, `initialDelayMs` and `maxDelayMs`) run with multiplier 2 and
jitter enabled; consequently every retried failure's actual delay is a
floored draw from within plus or minus 25 percent of the nominal
exponential delay — and not the exact nominal value, as the `rand = 0` draw
shows. -/
theorem retry_default_merge_and_jitter :
    mergeRetryOptions upsRetryCallSiteOptions =
      (⟨2, 1000, 5000, 2, true⟩ : RetryOptions) ∧
    (∀ (n : Nat) (r : ℚ), 0 ≤ r → r < 1 →
      (3 / 4 : ℚ) * min ((1000 : ℚ) * 2 ^ n) 5000 - 1 <
        ((calculateDelay n (mergeRetryOptions upsRetryCallSiteOptions) r : ℤ) : ℚ) ∧
      ((calculateDelay n (mergeRetryOptions upsRetryCallSiteOptions) r : ℤ) : ℚ) ≤
        (5 / 4 : ℚ) * min ((1000 : ℚ) * 2 ^ n) 5000) ∧
    calculateDelay 0 (mergeRetryOptions upsRetryCallSiteOptions) 0 ≠ 1000 := by
  have hmerge : mergeRetryOptions upsRetryCallSiteOptions =
      (⟨2, 1000, 5000, 2, true⟩ : RetryOptions) := rfl
  refine ⟨hmerge, ?_, ?_⟩
  · intro n r hr0 hr1
    rw [hmerge]
    have hcpos : (1000 : ℚ) ≤ min ((1000 : ℚ) * 2 ^ n) 5000 := by
      have h2 : (1 : ℚ) ≤ 2 ^ n := one_le_pow₀ (by norm_num)
      have : (1000 : ℚ) ≤ 1000 * 2 ^ n := by nlinarith
      exact le_min this (by norm_num)
    have hx : calculateDelay n (⟨2, 1000, 5000, 2, true⟩ : RetryOptions) r =
        Int.floor (min ((1000 : ℚ) * 2 ^ n) 5000 +
          (r * (min ((1000 : ℚ) * 2 ^ n) 5000 * (1 / 4)) * 2 -
            min ((1000 : ℚ) * 2 ^ n) 5000 * (1 / 4))) := by
      simp [calculateDelay]
    set c := min ((1000 : ℚ) * 2 ^ n) 5000 with hc
    set x := c + (r * (c * (1 / 4)) * 2 - c * (1 / 4)) with hxdef
    clear_value c
    have hlow : (3 / 4 : ℚ) * c ≤ x := by
      have hrc : 0 ≤ r * c := mul_nonneg hr0 (by linarith)
      rw [hxdef]
      nlinarith
    have hup : x ≤ (5 / 4 : ℚ) * c := by
      have hrc : r * c ≤ c := by nlinarith
      rw [hxdef]
      nlinarith
    clear_value x
    rw [hx]
    have hfl₁ : x - 1 < ((Int.floor x : ℤ) : ℚ) := Int.sub_one_lt_floor x
    have hfl₂ : ((Int.floor x : ℤ) : ℚ) ≤ x := Int.floor_le x
    constructor
    · linarith
    · linarith
  · rw [hmerge]
    have h750 : calculateDelay 0 (⟨2, 1000, 5000, 2, true⟩ : RetryOptions) 0 = 750 := by
      simp [calculateDelay]
      norm_num [min_def, Int.floor_eq_iff]
    rw [h750]
    decide

theorem retry_default_merge_and_jitter_witness :
    (3 / 4 : ℚ) * min ((1000 : ℚ) * 2 ^ 0) 5000 - 1 <
      ((calculateDelay 0 (mergeRetryOptions upsRetryCallSiteOptions) (1 / 2) : ℤ) : ℚ) ∧
    ((calculateDelay 0 (mergeRetryOptions upsRetryCallSiteOptions) (1 / 2) : ℤ) : ℚ) ≤
      (5 / 4 : ℚ) * min ((1000 : ℚ) * 2 ^ 0) 5000 :=
  retry_default_merge_and_jitter.2.1 0 (1 / 2) (by norm_num) (by norm_num)

/-- C7: for every rate request the domain-schema validation runs before any
network activity, in mock mode too — an invalid request makes `getRates`
fail immediately with the Validation error, with an empty effect trace: no
token acquired or consumed and no transport call made. -/
theorem validation_before_network (mockMode : Bool) (fixture : UpsRateResponse)
    (request : RateRequestModel) (outcomes : Nat → RateAttemptOutcome)
    (rand : Nat → ℚ) (tid : String)
    (hinvalid : validRateRequest request = false) :
    getRates mockMode fixture request outcomes rand tid =
      (.error (CarrierValidationError "Invalid rate request" "ups"
        "VALIDATION_ERROR" (some 400)), []) ∧
    (CarrierValidationError "Invalid rate request" "ups" "VALIDATION_ERROR"
      (some 400)).kind = .validation ∧
    (CarrierValidationError "Invalid rate request" "ups" "VALIDATION_ERROR"
      (some 400)).isRetryable = false := by
  refine ⟨?_, rfl, rfl⟩
  simp [getRates, getRatesWithPolicy, hinvalid]

theorem validation_before_network_witness :
    getRates false stubRateResponse emptyPackagesRequest
      (fun _ => .transportFailure unauthorizedAxiosError) (fun _ => 0) "t" =
    (.error (CarrierValidationError "Invalid rate request" "ups"
      "VALIDATION_ERROR" (some 400)), []) :=
  (validation_before_network false stubRateResponse emptyPackagesRequest
    (fun _ => .transportFailure unauthorizedAxiosError) (fun _ => 0) "t" (by decide)).1

theorem withRetryAux_not_retryable {α : Type} (opts : RetryOptions)
    (attempts : Nat → Except CarrierErrorModel α) (rand : Nat → ℚ)
    (a remaining : Nat) (e : CarrierErrorModel)
    (hatt : attempts a = .error e) (hret : e.isRetryable = false) :
    withRetryAux opts attempts rand a remaining = (.error e, []) := by
  cases remaining <;> simp [withRetryAux, hatt, hret]

/-- C2 (amended): a transport failure with HTTP status 401 invalidates the
token cache exactly once per `getRates` call before the classified Auth
error is returned, for every retry policy — the Auth error is not
retryable, so exactly one attempt runs. A 403, although also classified
Auth, does not trigger invalidation (see the counterexample). -/
theorem auth_401_invalidates_once (opts : RetryOptions) (fixture : UpsRateResponse)
    (request : RateRequestModel) (rand : Nat → ℚ) (tid : String)
    (ax : AxiosErrorModel) (r : AxiosResponseModel)
    (hvalid : validRateRequest request = true)
    (hr : ax.response = some r) (h401 : r.status = 401) :
    (getRatesWithPolicy opts false fixture request
        (fun _ => .transportFailure ax) rand tid).2.count
      PipelineEvent.invalidateToken = 1 ∧
    (getRatesWithPolicy opts false fixture request
        (fun _ => .transportFailure ax) rand tid).2 =
      [.tokenAcquire, .transportCall, .invalidateToken] ∧
    exceptError (getRatesWithPolicy opts false fixture request
        (fun _ => .transportFailure ax) rand tid).1 =
      some (mapAxiosError (.axios ax) "ups") ∧
    (mapAxiosError (.axios ax) "ups").kind = .auth := by
  have hauth : isAuthError (.axios ax) = true := by
    simp [isAuthError, hr, h401]
  have hmap : mapAxiosError (.axios ax) "ups" =
      CarrierAuthError (extractErrorMessage r.data) "ups"
        (extractErrorCode r.data) (some 401) := by
    simp [mapAxiosError, hr, h401]
  have hexec : executeRateRequest (.transportFailure ax) tid =
      (.error (mapAxiosError (.axios ax) "ups"),
        [.tokenAcquire, .transportCall, .invalidateToken]) := by
    simp [executeRateRequest, rateAttemptBody, hauth]
  have hretry : withRetryAux opts
      (fun (_ : Nat) => (Except.error (mapAxiosError (.axios ax) "ups") :
        Except CarrierErrorModel RateResponseModel)) rand 0 opts.maxRetries =
      (.error (mapAxiosError (.axios ax) "ups"), []) := by
    refine withRetryAux_not_retryable opts _ rand 0 opts.maxRetries _ rfl ?_
    rw [hmap]
    rfl
  have hrun : getRatesWithPolicy opts false fixture request
      (fun _ => .transportFailure ax) rand tid =
      (.error (mapAxiosError (.axios ax) "ups"),
        [.tokenAcquire, .transportCall, .invalidateToken]) := by
    simp only [getRatesWithPolicy, hvalid, withRetry, hexec, hretry]
    simp [List.range_succ, hexec]
  rw [hrun]
  refine ⟨by rfl, rfl, rfl, ?_⟩
  rw [hmap]
  rfl

theorem auth_401_invalidates_once_witness :
    (getRatesWithPolicy (mergeRetryOptions upsRetryCallSiteOptions) false
        stubRateResponse sampleRateRequest
        (fun _ => .transportFailure unauthorizedAxiosError) (fun _ => 0) "t").2.count
      PipelineEvent.invalidateToken = 1 ∧
    (mapAxiosError (.axios unauthorizedAxiosError) "ups").kind = .auth := by
  have h := auth_401_invalidates_once (mergeRetryOptions upsRetryCallSiteOptions)
    stubRateResponse sampleRateRequest (fun _ => 0) "t" unauthorizedAxiosError
    ⟨401, .null, []⟩ (by decide) rfl rfl
  exact ⟨h.1, h.2.2.2⟩

theorem auth_403_no_invalidate_cex :
    (mapAxiosError (.axios forbiddenAxiosError) "ups").kind = .auth ∧
    (getRates false stubRateResponse sampleRateRequest
      (fun _ => .transportFailure forbiddenAxiosError) (fun _ => 0) "t").2.count
        PipelineEvent.invalidateToken = 0 ∧
    (getRates false stubRateResponse sampleRateRequest
      (fun _ => .transportFailure forbiddenAxiosError) (fun _ => 0) "t").2 =
      [.tokenAcquire, .transportCall] := by
  decide

/-- C3 (code evaluated at the failing input): a carrier body failing the
response-schema validation makes `executeRateRequest` throw
`CarrierResponseParseError`, but the catch block feeds that already
classified error back through `ErrorMapper.mapAxiosError`, which re-wraps
it as `CarrierUnknownError` — so the caller of `getRates` observes kind
Unknown, not ResponseParse, contradicting both the spec and the
repository's own test that expects `CarrierResponseParseError`. -/
theorem response_parse_rewrapped_as_unknown :
    upsRateResponseSchemaCheck invalidStructureBody = false ∧
    exceptError (getRates false stubRateResponse sampleRateRequest
      (fun _ => .httpResponse 200 invalidStructureBody) (fun _ => 0) "t").1 =
      some (CarrierUnknownError "Invalid response structure from UPS" "ups"
        "UNKNOWN_ERROR" none) ∧
    (CarrierUnknownError "Invalid response structure from UPS" "ups"
      "UNKNOWN_ERROR" none).kind = .unknown := by
  decide

theorem jsParseFloat_2810 : jsParseFloat "28.10" = JsNum.val (281 / 10) := by
  have hdata : "28.10".data.dropWhile Char.isWhitespace = ['2', '8', '.', '1', '0'] := by decide
  have ht : takeDigits ['2', '8', '.', '1', '0'] = (['2', '8'], ['.', '1', '0']) := by decide
  have ht₂ : takeDigits ['1', '0'] = (['1', '0'], []) := by decide
  have hd : digitsToNat ['2', '8'] = 28 := by decide
  have hd₂ : digitsToNat ['1', '0'] = 10 := by decide
  simp +decide [jsParseFloat, hdata, ht, ht₂, hd, hd₂]
  norm_num

theorem jsParseFloat_1945 : jsParseFloat "19.45" = JsNum.val (389 / 20) := by
  have hdata : "19.45".data.dropWhile Char.isWhitespace = ['1', '9', '.', '4', '5'] := by decide
  have ht : takeDigits ['1', '9', '.', '4', '5'] = (['1', '9'], ['.', '4', '5']) := by decide
  have ht₂ : takeDigits ['4', '5'] = (['4', '5'], []) := by decide
  have hd : digitsToNat ['1', '9'] = 19 := by decide
  have hd₂ : digitsToNat ['4', '5'] = 45 := by decide
  simp +decide [jsParseFloat, hdata, ht, ht₂, hd, hd₂]
  norm_num

theorem jsParseFloat_1235 : jsParseFloat "12.35" = JsNum.val (247 / 20) := by
  have hdata : "12.35".data.dropWhile Char.isWhitespace = ['1', '2', '.', '3', '5'] := by decide
  have ht : takeDigits ['1', '2', '.', '3', '5'] = (['1', '2'], ['.', '3', '5']) := by decide
  have ht₂ : takeDigits ['3', '5'] = (['3', '5'], []) := by decide
  have hd : digitsToNat ['1', '2'] = 12 := by decide
  have hd₂ : digitsToNat ['3', '5'] = 35 := by decide
  simp +decide [jsParseFloat, hdata, ht, ht₂, hd, hd₂]
  norm_num

theorem toRateQuote_fields (s : UpsRatedShipment) :
    (toRateQuote s).serviceCode = s.Service.Code ∧
    (toRateQuote s).totalCharges = jsParseFloat s.TotalCharges.MonetaryValue ∧
    (toRateQuote s).serviceName =
      jsStrOr (UPS_SERVICE_CODES.lookup s.Service.Code)
        (jsStrOr s.Service.Description s.Service.Code) := by
  obtain ⟨svc, bw, tc, soc, tot, nrc, gd, tit⟩ := s
  refine ⟨?_, ?_, ?_⟩ <;>
    · simp only [toRateQuote]
      cases bw <;> split_ifs <;> rfl

theorem fromUpsRateResponse_quotes (resp : UpsRateResponse) (tid : Option String) :
    (fromUpsRateResponse resp tid).quotes =
      resp.RateResponse.RatedShipment.map toRateQuote ∧
    (fromUpsRateResponse resp tid).quotes.length =
      resp.RateResponse.RatedShipment.length := by
  simp [fromUpsRateResponse]

theorem stub_mapping_eval :
    (fromUpsRateResponse stubRateResponse (some "t")).quotes.map
        (fun q => (q.serviceCode, q.totalCharges)) =
      [("01", JsNum.val (281 / 10)), ("02", JsNum.val (389 / 20)),
        ("03", JsNum.val (247 / 20))] ∧
    (fromUpsRateResponse stubRateResponse (some "t")).quotes.map
        (fun q => q.serviceName) =
      ["UPS Next Day Air", "UPS 2nd Day Air", "UPS Ground"] := by
  constructor <;>
    simp +decide [fromUpsRateResponse, stubRateResponse, stubShipment, toRateQuote,
      UPS_SERVICE_CODES, jsStrOr, optStrTruthy, jsParseFloat_2810, jsParseFloat_1945,
      jsParseFloat_1235]

/-- C9: response-mapping postcondition — `fromUpsRateResponse` produces
exactly one quote per rated shipment, in order; each quote's `serviceCode`
is the shipment's `Service.Code`, its `totalCharges` is the parsed
`TotalCharges.MonetaryValue`, and its `serviceName` resolves through the
static lookup, then the carrier description, then the raw code; the stub
response with services 01/02/03 and charges 28.10/19.45/12.35 yields
exactly those three serviceCode/totalCharges pairs with the looked-up
names. -/
theorem mapper_postcondition :
    (∀ (resp : UpsRateResponse) (tid : Option String),
      (fromUpsRateResponse resp tid).quotes =
        resp.RateResponse.RatedShipment.map toRateQuote ∧
      (fromUpsRateResponse resp tid).quotes.length =
        resp.RateResponse.RatedShipment.length) ∧
    (∀ s : UpsRatedShipment,
      (toRateQuote s).serviceCode = s.Service.Code ∧
      (toRateQuote s).totalCharges = jsParseFloat s.TotalCharges.MonetaryValue ∧
      (toRateQuote s).serviceName =
        jsStrOr (UPS_SERVICE_CODES.lookup s.Service.Code)
          (jsStrOr s.Service.Description s.Service.Code)) ∧
    (fromUpsRateResponse stubRateResponse (some "t")).quotes.map
        (fun q => (q.serviceCode, q.totalCharges)) =
      [("01", JsNum.val (281 / 10)), ("02", JsNum.val (389 / 20)),
        ("03", JsNum.val (247 / 20))] ∧
    (fromUpsRateResponse stubRateResponse (some "t")).quotes.map
        (fun q => q.serviceName) =
      ["UPS Next Day Air", "UPS 2nd Day Air", "UPS Ground"] :=
  ⟨fromUpsRateResponse_quotes, toRateQuote_fields,
    stub_mapping_eval.1, stub_mapping_eval.2⟩
